import Mathlib

/-!
Verification of the MultiAgent-RFP procurement workflow.

This file is a shallow embedding of the Python sources of the repository:
the data model (models/request.py, models/rfp.py), the budget-extraction and
guardrail logic of the approval agent (agents/approval_agent.py), the RFP
generation agent (agents/rfp_generation_agent.py) with its templates
(config/settings.py), the e-mail delivery loop (api/email_service.py), and the
LangGraph workflow (workflows/procurement_workflow.py).

Modelling conventions:
- Python strings become Lean String (or List Char for scanning); the relevant
  strings are ASCII, so Char.toLower models str.lower faithfully on them.
- Python float monetary values become exact rationals; every numeric literal a
  claim touches is exactly representable, so no float-rounding behaviour is
  observable in the claims.
- datetime.now() timestamps become an abstract natural-number parameter.
- Calls to external capabilities (the OpenAI chains, SMTP delivery, uuid
  generation) become explicit oracle parameters: an Except value models a call
  that either raises (the error message) or returns a parsed JSON payload.
- The regular-expression scans of _extract_budget are specialised matchers for
  exactly the four patterns in the source, with the leftmost-match, greedy
  semantics of re.findall; the analysis of each pattern shows that the usual
  backtracking can never change the matched group for these patterns, so the
  matchers below are deterministic.
-/

/-- Prefix test on character lists; models Python startswith on the scanning
position of the regex engine. -/
def listHasPre : List Char → List Char → Bool
  | [], _ => true
  | _ :: _, [] => false
  | a :: as, b :: bs => a == b && listHasPre as bs

/-- Substring test on character lists; models the Python `in` operator for
strings. -/
def listHasSub (needle : List Char) : List Char → Bool
  | [] => listHasPre needle []
  | c :: t => listHasPre needle (c :: t) || listHasSub needle t

/-- String prefix test, used to state properties about status messages. -/
def startsWithStr (p s : String) : Bool := listHasPre p.data s.data

/-- Lower-cased character data of a string; models str.lower() for the ASCII
strings the guardrails compare. -/
def lowerData (s : String) : List Char := s.data.map Char.toLower

/-- Membership of one string in another after lower-casing both sides, exactly
the test `section.lower() in rfp.content.lower()` of the guardrail code. -/
def lowerContains (hay needle : String) : Bool :=
  listHasSub (lowerData needle) (lowerData hay)

/-- Model of models/request.py ProcurementRequest. The datetime fields are
abstract natural-number timestamps; estimated_budget is an exact rational. -/
structure ProcurementRequest where
  id : Option String
  title : String
  description : String
  estimated_budget : Option ℚ := none
  timeline : Option String := none
  department : Option String := none
  requester : Option String := none
  required_by_date : Option ℕ := none
  additional_notes : Option String := none
  created_at : ℕ := 0
  deriving DecidableEq

/-- Model of models/request.py ClassificationResult. -/
structure ClassificationResult where
  request_id : String
  category : String
  confidence : ℚ
  reasoning : String
  deriving DecidableEq

/-- Model of models/rfp.py RFPStatus. -/
inductive RFPStatus
  | draft
  | pending_approval
  | approved
  | rejected
  | sent
  | cancelled
  deriving DecidableEq

/-- Model of models/rfp.py Supplier. -/
structure Supplier where
  name : String
  email : String
  phone : Option String := none
  contact_person : Option String := none
  deriving DecidableEq

/-- Model of models/rfp.py RFP. -/
structure RFP where
  id : Option String := none
  request_id : String
  title : String
  category : String
  content : String
  status : RFPStatus := .draft
  created_at : ℕ := 0
  updated_at : ℕ := 0
  suppliers : List Supplier := []
  approval_feedback : Option String := none
  approval_date : Option ℕ := none
  sent_date : Option ℕ := none
  deriving DecidableEq

/-- Model of models/rfp.py ApprovalResult. -/
structure ApprovalResult where
  rfp_id : String
  approved : Bool
  feedback : String
  issues : List String := []
  deriving DecidableEq

/-- Character class of the regex fragment [\d,] used by every budget pattern. -/
def amtChar (c : Char) : Bool := c.isDigit || c == ','

/-- Character class of the regex fragment \s (ASCII part), as matched by the
\s* that follows the dollar sign or the amount group. -/
def wsChar (c : Char) : Bool :=
  c == ' ' || c == '\t' || c == '\n' || c == '\r' || c == '\x0B' || c == '\x0C'

/-- Greedy match of `[\d,]+(?:\.\d+)?` at the head of the list, returning the
matched group and the remaining input. The subexpressions are greedy and
nothing inside the group can backtrack into a different group for the four
budget patterns (digits, commas, whitespace and the letters of USD/dollars are
pairwise disjoint character classes), so a single greedy pass is faithful. -/
def amtGreedy (l : List Char) : Option (List Char × List Char) :=
  let run := l.takeWhile amtChar
  if run.isEmpty then none
  else
    let rest := l.drop run.length
    match rest with
    | '.' :: r2 =>
      let frac := r2.takeWhile Char.isDigit
      if frac.isEmpty then some (run, rest)
      else some (run ++ '.' :: frac, r2.drop frac.length)
    | _ => some (run, rest)

/-- Case-insensitive test for the alternation (?:USD|dollars) at the head of
the input. -/
def usdOrDollars (l : List Char) : Bool :=
  let low := l.map Char.toLower
  listHasPre "usd".data low || listHasPre "dollars".data low

/-- Match of the first pattern `\$\s*([\d,]+(?:\.\d+)?)` at the current
position, returning the captured group. -/
def p1At (l : List Char) : Option (List Char) :=
  match l with
  | '$' :: r => (amtGreedy (r.dropWhile wsChar)).map Prod.fst
  | _ => none

/-- Match of the second pattern `([\d,]+(?:\.\d+)?)\s*(?:USD|dollars)` at the
current position, returning the captured group. -/
def p2At (l : List Char) : Option (List Char) :=
  match amtGreedy l with
  | none => none
  | some (g, rest) => if usdOrDollars (rest.dropWhile wsChar) then some g else none

/-- Case-insensitive test for the literal `budget` at the current position. -/
def budgetHere (l : List Char) : Bool := listHasPre "budget".data (l.map Char.toLower)

/-- Lazy scan `.*?` (a dot does not match a newline) followed by the tail of
the third pattern, `\$\s*([\d,]+(?:\.\d+)?)`. -/
def p3Lazy : List Char → Option (List Char)
  | [] => none
  | c :: r =>
    match p1At (c :: r) with
    | some g => some g
    | none => if c = '\n' then none else p3Lazy r

/-- Match of the third pattern `budget.*?\$\s*([\d,]+(?:\.\d+)?)` at the
current position. -/
def p3At (l : List Char) : Option (List Char) :=
  if budgetHere l then p3Lazy (l.drop 6) else none

/-- Lazy scan `.*?` followed by the tail of the fourth pattern,
`([\d,]+(?:\.\d+)?)\s*(?:USD|dollars)`. -/
def p4Lazy : List Char → Option (List Char)
  | [] => none
  | c :: r =>
    match p2At (c :: r) with
    | some g => some g
    | none => if c = '\n' then none else p4Lazy r

/-- Match of the fourth pattern `budget.*?([\d,]+(?:\.\d+)?)\s*(?:USD|dollars)`
at the current position. -/
def p4At (l : List Char) : Option (List Char) :=
  if budgetHere l then p4Lazy (l.drop 6) else none

/-- Leftmost match of a pattern: re.findall scans every position from the left
and the code keeps only matches[0], the group of the leftmost match. -/
def scanFirst (p : List Char → Option (List Char)) : List Char → Option (List Char)
  | [] => p []
  | c :: r =>
    match p (c :: r) with
    | some g => some g
    | none => scanFirst p r

/-- The four budget patterns of _extract_budget in their priority order. -/
def budget_patterns : List (List Char → Option (List Char)) :=
  [p1At, p2At, p3At, p4At]

/-- Numeric value of a list of decimal digit characters. -/
def digitsVal (l : List Char) : ℕ := l.foldl (fun a c => 10 * a + (c.toNat - 48)) 0

/-- Model of `float(budget_str)` where budget_str is the captured group with
every comma removed; the result is none exactly when float raises ValueError
(the comma-stripped group is empty). Values are exact rationals. -/
def parseAmt (g : List Char) : Option ℚ :=
  let s := g.filter (fun c => c ≠ ',')
  let ip := s.takeWhile (fun c => c ≠ '.')
  let rest := s.drop ip.length
  if !ip.all Char.isDigit then none
  else
    match rest with
    | [] => if ip.isEmpty then none else some (digitsVal ip)
    | '.' :: frac =>
      if frac.isEmpty && ip.isEmpty then none
      else if !frac.all Char.isDigit then none
      else some ((digitsVal ip : ℚ) + (digitsVal frac : ℚ) / (10 : ℚ) ^ frac.length)
    | _ => none

/-- The pattern loop of _extract_budget: for each pattern in order, take the
group of the leftmost match if any; if float() parses it, return the value,
otherwise continue with the next pattern; return 0 when every pattern is
exhausted. -/
def tryPats : List (List Char → Option (List Char)) → List Char → ℚ
  | [], _ => 0
  | p :: ps, cs =>
    match scanFirst p cs with
    | none => tryPats ps cs
    | some g =>
      match parseAmt g with
      | some q => q
      | none => tryPats ps cs

/-- Model of ApprovalAgent._extract_budget (agents/approval_agent.py). -/
def extract_budget (content : String) : ℚ := tryPats budget_patterns content.data

/-- Helper for stating the fall-through behaviour of the pattern loop: true
exactly when the pattern has a leftmost match whose group parses. -/
def patGroupParses (p : List Char → Option (List Char)) (cs : List Char) : Bool :=
  match scanFirst p cs with
  | some g => (parseAmt g).isSome
  | none => false

/-- Model of config/settings.py MAX_BUDGET. -/
def MAX_BUDGET : ℚ := 1000000

/-- Comma grouping of a reversed digit list, three digits at a time; helper
for the thousands separator of the Python format spec. -/
def group3 : List Char → List Char
  | a :: b :: c :: d :: rest => a :: b :: c :: ',' :: group3 (d :: rest)
  | l => l

/-- Cent value of a non-negative rational, rounding halves up: the floor of
q times 100 plus one half, computed on the numerator and denominator. Only
exact cent values reach it in this development, so the rounding mode is
unobservable. -/
def centsOf (q : ℚ) : ℕ := (200 * q.num.toNat + q.den) / (2 * q.den)

/-- Rendering of a non-negative rational in the Python format spec `,.2f`:
two decimals and a thousands separator. -/
def formatMoney (q : ℚ) : String :=
  let n : ℕ := centsOf q
  let ipChars := (group3 ((Nat.toDigits 10 (n / 100)).reverse)).reverse
  let fpChars :=
    if n % 100 < 10 then '0' :: Nat.toDigits 10 (n % 100) else Nat.toDigits 10 (n % 100)
  String.mk ipChars ++ "." ++ String.mk fpChars

/-- The budget guardrail issue string of _apply_guardrails. -/
def budget_threshold_issue : String :=
  "Budget exceeds maximum allowed threshold of $" ++ formatMoney MAX_BUDGET

/-- The missing-section issue string of _apply_guardrails. -/
def missing_section_msg (sec : String) : String := "Missing essential section: " ++ sec

/-- The essential-sections list of _apply_guardrails, in its checked order. -/
def essential_sections : List String := ["Overview", "Requirements", "Timeline", "Budget"]

/-- A section is missing when it does not occur, case-insensitively, as a
substring of the RFP content. -/
def sectionMissing (content sec : String) : Bool := !lowerContains content sec

/-- Issues the budget guardrail appends for a given content. -/
def guardrail_budget_issues (content : String) : List String :=
  if extract_budget content > MAX_BUDGET then [budget_threshold_issue] else []

/-- Issues the missing-section guardrail appends for a given content, one per
missing section, in the checked order of essential_sections. -/
def guardrail_section_issues (content : String) : List String :=
  (essential_sections.filter (fun s => sectionMissing content s)).map missing_section_msg

/-- Model of ApprovalAgent._apply_guardrails (agents/approval_agent.py): copy
the issue list, run the budget guardrail, then the missing-section loop, and
return the updated result. The Python code mutates approval_result in place
and returns it; the value returned here is the state of that object after the
call. -/
def apply_guardrails (rfp : RFP) (approval_result : ApprovalResult) : ApprovalResult :=
  let issues := approval_result.issues
  let budget := extract_budget rfp.content
  let step1 : Bool × List String :=
    if budget > MAX_BUDGET then (false, issues ++ [budget_threshold_issue])
    else (approval_result.approved, issues)
  let step2 : Bool × List String :=
    essential_sections.foldl
      (fun p sec =>
        if sectionMissing rfp.content sec then (false, p.2 ++ [missing_section_msg sec])
        else p)
      step1
  { approval_result with approved := step2.1, issues := step2.2 }

/-- The Software template of config/settings.py RFP_TEMPLATES, verbatim. -/
def SOFTWARE_TEMPLATE : String := "
# REQUEST FOR PROPOSAL: SOFTWARE PROCUREMENT
## Project Overview
{project_overview}

## Requirements
{requirements}

## Timeline
{timeline}

## Budget
{budget}

## Evaluation Criteria
{evaluation_criteria}

## Submission Instructions
{submission_instructions}
    "

/-- The Hardware template of config/settings.py RFP_TEMPLATES, verbatim. -/
def HARDWARE_TEMPLATE : String := "
# REQUEST FOR PROPOSAL: HARDWARE PROCUREMENT
## Project Overview
{project_overview}

## Technical Specifications
{requirements}

## Quantity
{quantity}

## Delivery Timeline
{timeline}

## Budget
{budget}

## Warranty Requirements
{warranty}

## Submission Instructions
{submission_instructions}
    "

/-- The Services template of config/settings.py RFP_TEMPLATES, verbatim. -/
def SERVICES_TEMPLATE : String := "
# REQUEST FOR PROPOSAL: SERVICES PROCUREMENT
## Service Overview
{project_overview}

## Scope of Work
{requirements}

## Service Level Requirements
{sla}

## Timeline
{timeline}

## Budget
{budget}

## Evaluation Criteria
{evaluation_criteria}

## Submission Instructions
{submission_instructions}
    "

/-- The Raw Materials template of config/settings.py RFP_TEMPLATES, verbatim. -/
def RAW_MATERIALS_TEMPLATE : String := "
# REQUEST FOR PROPOSAL: RAW MATERIALS PROCUREMENT
## Material Overview
{project_overview}

## Material Specifications
{requirements}

## Quantity
{quantity}

## Quality Standards
{quality}

## Delivery Timeline
{timeline}

## Budget
{budget}

## Submission Instructions
{submission_instructions}
    "

/-- The template dictionary of config/settings.py, as an association list. -/
def RFP_TEMPLATES : List (String × String) :=
  [("Software", SOFTWARE_TEMPLATE), ("Hardware", HARDWARE_TEMPLATE),
   ("Services", SERVICES_TEMPLATE), ("Raw Materials", RAW_MATERIALS_TEMPLATE)]

/-- Model of `RFP_TEMPLATES.get(category, RFP_TEMPLATES[services])` in
generate_rfp: category lookup with the Services template as the default. -/
def lookupTemplate (category : String) : String :=
  (RFP_TEMPLATES.lookup category).getD SERVICES_TEMPLATE

/-- The ten structured field names generate_rfp defaults to the empty string
when the drafting capability omits them. -/
def template_field_keys : List String :=
  ["project_overview", "requirements", "timeline", "budget",
   "evaluation_criteria", "submission_instructions", "quantity",
   "warranty", "sla", "quality"]

/-- The defaulting loop of generate_rfp: every field key absent from the
drafted JSON is added with the empty string as its value. -/
def addDefaults (d : List (String × String)) : List (String × String) :=
  d ++ (template_field_keys.filter (fun k => (d.lookup k).isNone)).map (fun k => (k, ""))

/-- Scanner state of the str.format model: outside a field, just after a
single opening brace, just after a single closing brace, or inside a field
name (accumulated reversed). -/
inductive FmtMode
  | normal
  | openBr
  | closeBr
  | inKey (key : List Char)

/-- Character-by-character model of Python str.format with keyword arguments,
restricted to the syntax the templates use: literal text, doubled braces as
escapes, and named fields without format specs. The result is none exactly
when format raises (KeyError for an unknown field name, ValueError for an
unmatched brace, IndexError for an empty field name). -/
def pyFormatGo (d : List (String × String)) : List Char → FmtMode → Option (List Char)
  | [], .normal => some []
  | [], .openBr => none
  | [], .closeBr => none
  | [], .inKey _ => none
  | c :: rest, .normal =>
    if c = '{' then pyFormatGo d rest .openBr
    else if c = '}' then pyFormatGo d rest .closeBr
    else (pyFormatGo d rest .normal).map (fun t => c :: t)
  | c :: rest, .openBr =>
    if c = '{' then (pyFormatGo d rest .normal).map (fun t => '{' :: t)
    else if c = '}' then none
    else pyFormatGo d rest (.inKey [c])
  | c :: rest, .closeBr =>
    if c = '}' then (pyFormatGo d rest .normal).map (fun t => '}' :: t)
    else none
  | c :: rest, .inKey key =>
    if c = '}' then
      match d.lookup (String.mk key.reverse) with
      | some v => (pyFormatGo d rest .normal).map (fun t => v.data ++ t)
      | none => none
    else if c = '{' then none
    else pyFormatGo d rest (.inKey (c :: key))

/-- Model of `template.format(**rfp_content_json)`. -/
def pyFormat (template : String) (d : List (String × String)) : Option String :=
  (pyFormatGo d template.data .normal).map String.mk

/-- Parsed JSON payload of the classification chain. -/
structure ClassifyJson where
  category : String
  confidence : ℚ
  reasoning : String
  deriving DecidableEq

/-- The in-place id assignment of ClassificationAgent.classify: the source
tests the truthiness of request.id, which fails for a None id and for an
empty-string id; in both cases a fresh id is generated and written into the
request object that the caller (and every workflow snapshot) still aliases. -/
def classify_mutates (genId : String) (req : ProcurementRequest) : ProcurementRequest :=
  match req.id with
  | none => { req with id := some genId }
  | some s => if s = "" then { req with id := some genId } else req

/-- Model of ClassificationAgent.classify (agents/classification_agent.py):
the request object after the id assignment, paired with the outcome of the
chain call (an exception message or the classification built from the parsed
JSON). -/
def classify_agent (req : ProcurementRequest) (genId : String)
    (api : Except String ClassifyJson) :
    ProcurementRequest × Except String ClassificationResult :=
  let req2 := classify_mutates genId req
  match api with
  | .error e => (req2, .error e)
  | .ok j => (req2, .ok ⟨req2.id.getD "", j.category, j.confidence, j.reasoning⟩)

/-- Model of RFPGenerationAgent.generate_rfp (agents/rfp_generation_agent.py):
the drafted JSON is the oracle (an exception message or the field mapping);
the template for the category is selected with the Services fallback, every
missing field key is defaulted to the empty string, the template is formatted
and the RFP is built with status PENDING_APPROVAL. A none request id cannot
be validated into the str-typed RFP.request_id, and a format failure raises;
both surface as errors. -/
def generate_rfp_agent (req : ProcurementRequest) (c : ClassificationResult)
    (draft_api : Except String (List (String × String))) (newId : String) (now : ℕ) :
    Except String RFP :=
  match draft_api with
  | .error e => .error e
  | .ok draft =>
    let template := lookupTemplate c.category
    match pyFormat template (addDefaults draft) with
    | none => .error "KeyError"
    | some content =>
      match req.id with
      | none => .error "validation error for RFP"
      | some rid =>
        .ok { id := some newId, request_id := rid, title := "RFP for " ++ req.title,
              category := c.category, content := content, status := .pending_approval,
              created_at := now, updated_at := now }

/-- Parsed JSON payload of the approval chain: the tentative verdict of the
model before guardrails. -/
structure ModelVerdict where
  approved : Bool
  feedback : String
  issues : List String
  deriving DecidableEq

/-- Model of ApprovalAgent.validate_rfp (agents/approval_agent.py): the chain
outcome is the oracle; on success the ApprovalResult is built from the parsed
JSON, guardrails are applied, and the RFP object is updated in place (status,
approval_date on approval, approval_feedback always). The returned RFP is the
state of that shared object after the call; a chain exception is re-raised. -/
def validate_rfp (rfp : RFP) (api : Except String ModelVerdict) (now : ℕ) :
    Except String (ApprovalResult × RFP) :=
  match api with
  | .error e => .error e
  | .ok v =>
    let ar0 : ApprovalResult :=
      { rfp_id := rfp.id.getD "", approved := v.approved, feedback := v.feedback,
        issues := v.issues }
    let ar := apply_guardrails rfp ar0
    let rfp2 :=
      if ar.approved then
        { rfp with status := .approved, approval_date := some now,
                   approval_feedback := some ar.feedback }
      else { rfp with status := .rejected, approval_feedback := some ar.feedback }
    .ok (ar, rfp2)

/-- Per-supplier delivery outcomes folded with a logical AND, mirroring the
success flag of EmailService.send_rfp: the loop never aborts early, a failed
or raising attempt only clears the flag. The nth entry of outs is the outcome
of the attempt for the nth supplier (false also covers an exception while
building or sending the message). -/
def andOutcomes : List Supplier → List Bool → Bool
  | [], _ => true
  | _ :: ss, outs => outs.headD false && andOutcomes ss outs.tail

/-- The supplier loop of EmailService.send_rfp, also returning the list of
suppliers for which an attempt was made, in order. -/
def send_rfp_loop : List Supplier → List Bool → Bool → Bool × List Supplier
  | [], _, acc => (acc, [])
  | s :: ss, outs, acc =>
    let r := send_rfp_loop ss outs.tail (acc && outs.headD false)
    (r.1, s :: r.2)

/-- Model of EmailService.send_rfp (api/email_service.py): no suppliers means
failure without any attempt; otherwise every supplier is attempted in list
order and the result is the AND of the outcomes. -/
def email_send_rfp (rfp : RFP) (outs : List Bool) : Bool × List Supplier :=
  if rfp.suppliers.isEmpty then (false, [])
  else send_rfp_loop rfp.suppliers outs true

/-- Model of ApprovalAgent.send_to_suppliers (agents/approval_agent.py): a
non-APPROVED RFP is refused outright; otherwise the e-mail service runs and
on overall success the RFP object is updated in place to SENT with a sent
timestamp. Returns the success flag, the RFP object after the call, and the
list of attempted suppliers. -/
def send_to_suppliers (rfp : RFP) (outs : List Bool) (now : ℕ) :
    Bool × RFP × List Supplier :=
  if rfp.status ≠ RFPStatus.approved then (false, rfp, [])
  else
    let r := email_send_rfp rfp outs
    if r.1 then (true, { rfp with status := .sent, sent_date := some now }, r.2)
    else (false, rfp, r.2)

/-- Model of workflows/procurement_workflow.py WorkflowState. -/
structure WorkflowState where
  request : ProcurementRequest
  classification : Option ClassificationResult
  rfp : Option RFP
  approval : Option ApprovalResult
  email_sent : Bool
  error : Option String
  status : String
  deriving DecidableEq

/-- The node names of the workflow graph. -/
inductive NodeName
  | classify
  | generate_rfp
  | approve_rfp
  | send_email
  | error_handler
  deriving DecidableEq

/-- External outcomes of one workflow execution: the three chain calls, the
generated identifiers, the clock, and the per-supplier delivery outcomes. -/
structure Oracles where
  classify_api : Except String ClassifyJson
  classify_genId : String
  draft_api : Except String (List (String × String))
  rfp_newId : String
  approve_api : Except String ModelVerdict
  now : ℕ
  email_outs : List Bool

/-- Rendering of a non-negative rational with two decimals, the Python format
spec `.2f` used for the confidence in the classification status message. -/
def format2f (q : ℚ) : String :=
  let n : ℕ := centsOf q
  let fpChars :=
    if n % 100 < 10 then '0' :: Nat.toDigits 10 (n % 100) else Nat.toDigits 10 (n % 100)
  String.mk (Nat.toDigits 10 (n / 100)) ++ "." ++ String.mk fpChars

/-- Model of ProcurementWorkflow._classify_request: the agent runs (assigning
the request id in place when absent) and an exception becomes an error state;
otherwise the classification and a status message are stored. The defensive
None check of the Python node is unreachable because classify either raises
or returns a result. -/
def classify_node (o : Oracles) (s : WorkflowState) : WorkflowState :=
  let r := classify_agent s.request o.classify_genId o.classify_api
  match r.2 with
  | .error e =>
    { s with request := r.1, error := some ("Classification error: " ++ e),
             status := "Error during classification" }
  | .ok c =>
    { s with request := r.1, classification := some c,
             status := "Classified as " ++ c.category ++ " with " ++
               format2f c.confidence ++ " confidence" }

/-- Model of ProcurementWorkflow._generate_rfp: an absent classification or a
generation failure becomes an error state; otherwise the RFP is stored. -/
def generate_rfp_node (o : Oracles) (s : WorkflowState) : WorkflowState :=
  match s.classification with
  | none =>
    { s with error := some "No classification result available",
             status := "Error: Classification failed" }
  | some c =>
    match generate_rfp_agent s.request c o.draft_api o.rfp_newId o.now with
    | .error e =>
      { s with error := some ("RFP generation error: " ++ e),
               status := "Error during RFP generation" }
    | .ok rfp =>
      { s with rfp := some rfp, status := "RFP generated for " ++ c.category }

/-- Model of ProcurementWorkflow._approve_rfp: an absent RFP or a validation
exception becomes an error state; otherwise the approval result is stored
together with the updated RFP object (which every snapshot aliases). -/
def approve_rfp_node (o : Oracles) (s : WorkflowState) : WorkflowState :=
  match s.rfp with
  | none => { s with error := some "No RFP to validate", status := "Error: No RFP to validate" }
  | some rfp =>
    match validate_rfp rfp o.approve_api o.now with
    | .error e =>
      { s with error := some ("Approval error: " ++ e),
               status := "Error during RFP approval" }
    | .ok ar =>
      { s with rfp := some ar.2, approval := some ar.1,
               status := if ar.1.approved then "RFP approved"
                         else "RFP rejected: " ++ ar.1.feedback }

/-- Model of ProcurementWorkflow._send_email: no suppliers means the e-mail
is skipped; otherwise send_to_suppliers runs and its success flag and status
are stored. An absent RFP would raise and become an error state. -/
def send_email_node (o : Oracles) (s : WorkflowState) : WorkflowState :=
  match s.rfp with
  | none =>
    { s with error := some "Email sending error: rfp is None",
             status := "Error during email sending", email_sent := false }
  | some rfp =>
    if rfp.suppliers.isEmpty then
      { s with email_sent := false, status := "No suppliers specified. RFP not sent." }
    else
      let r := send_to_suppliers rfp o.email_outs o.now
      { s with rfp := some r.2.1, email_sent := r.1,
               status := if r.1 then "RFP sent to suppliers"
                         else "Failed to send RFP to suppliers" }

/-- Model of ProcurementWorkflow._handle_error: state.get with a None error
value yields None, which Python prints as the four-letter word None inside
the failure status. -/
def handle_error_node (s : WorkflowState) : WorkflowState :=
  { s with status := "Workflow failed: " ++ (match s.error with | some e => e | none => "None") }

/-- Model of ProcurementWorkflow._route_after_approval: an absent approval
result is routed as rejected, otherwise the verdict decides. -/
def route_after_approval (s : WorkflowState) : String :=
  match s.approval with
  | none => "rejected"
  | some a => if a.approved then "approved" else "rejected"

/-- The edges declared in _build_workflow: classify to generate_rfp to
approve_rfp unconditionally; after approve_rfp the conditional router maps
the approved label to send_email and the rejected label to END (none);
send_email and error_handler both go to END. The error_handler node has no
incoming edge and is not the entry point. -/
def next_node (n : NodeName) (s : WorkflowState) : Option NodeName :=
  match n with
  | .classify => some .generate_rfp
  | .generate_rfp => some .approve_rfp
  | .approve_rfp => if route_after_approval s = "approved" then some .send_email else none
  | .send_email => none
  | .error_handler => none

/-- Dispatch of a node name to its node function. -/
def run_node (o : Oracles) (n : NodeName) (s : WorkflowState) : WorkflowState :=
  match n with
  | .classify => classify_node o s
  | .generate_rfp => generate_rfp_node o s
  | .approve_rfp => approve_rfp_node o s
  | .send_email => send_email_node o s
  | .error_handler => handle_error_node s

/-- Graph executor: run the current node on the state, then follow the edge
from it; END terminates. The fuel bounds the walk; the graph is a DAG of four
reachable nodes, so fuel 5 never runs out. Returns the final state and the
list of executed nodes in order. -/
def run_from (o : Oracles) : ℕ → NodeName → WorkflowState → WorkflowState × List NodeName
  | 0, _, s => (s, [])
  | fuel + 1, n, s =>
    let s2 := run_node o n s
    match next_node n s2 with
    | none => (s2, [n])
    | some m =>
      let r := run_from o fuel m s2
      (r.1, n :: r.2)

/-- The initial state built by ProcurementWorkflow.execute. -/
def initial_state (req : ProcurementRequest) : WorkflowState :=
  { request := req, classification := none, rfp := none, approval := none,
    email_sent := false, error := none, status := "Started procurement workflow" }

/-- Model of ProcurementWorkflow.execute: compile the graph and run it from
the entry point on the initial state. Every node function is total, so the
invocation always returns a final state; the try block around it is only
exercised by failures of the graph library itself, which are outside this
embedding. -/
def workflow_execute (o : Oracles) (req : ProcurementRequest) :
    WorkflowState × List NodeName :=
  run_from o 5 .classify (initial_state req)

/-- Object store for the aliasing analysis of the classification step: the
request objects live at addresses and every workflow snapshot refers to its
request by address, exactly as Python dict snapshots share object
references. -/
def classify_step_heap (genId : String) (store : ℕ → ProcurementRequest) (reqAddr : ℕ) :
    (ℕ → ProcurementRequest) × ℕ :=
  (fun a => if a = reqAddr then classify_mutates genId (store reqAddr) else store a, reqAddr)

/-- Unfolding of the missing-section foldl of _apply_guardrails into the all
and filter-map normal form. -/
lemma guardrail_fold (content : String) (init : Bool × List String) (secs : List String) :
    secs.foldl
      (fun p sec =>
        if sectionMissing content sec then (false, p.2 ++ [missing_section_msg sec]) else p)
      init =
    (init.1 && secs.all (fun s => !sectionMissing content s),
     init.2 ++ (secs.filter (fun s => sectionMissing content s)).map missing_section_msg) := by
  induction secs generalizing init with
  | nil => simp
  | cons hd tl ih =>
    by_cases h : sectionMissing content hd
    · simp [h, ih, List.append_assoc]
    · simp [h, ih]

/-- Final approved flag of the guardrail stage in normal form. -/
lemma apply_guardrails_approved (rfp : RFP) (ar : ApprovalResult) :
    (apply_guardrails rfp ar).approved =
      (ar.approved && (guardrail_budget_issues rfp.content).isEmpty &&
        essential_sections.all (fun s => !sectionMissing rfp.content s)) := by
  unfold apply_guardrails guardrail_budget_issues
  by_cases hb : extract_budget rfp.content > MAX_BUDGET
  · simp [hb, guardrail_fold]
  · simp [hb, guardrail_fold]

/-- Final issue list of the guardrail stage in normal form: the model issues,
then the budget issue if it triggers, then the missing-section issues. -/
lemma apply_guardrails_issues (rfp : RFP) (ar : ApprovalResult) :
    (apply_guardrails rfp ar).issues =
      ar.issues ++ guardrail_budget_issues rfp.content ++
        guardrail_section_issues rfp.content := by
  unfold apply_guardrails guardrail_budget_issues guardrail_section_issues
  by_cases hb : extract_budget rfp.content > MAX_BUDGET
  · simp [hb, guardrail_fold, List.append_assoc]
  · simp [hb, guardrail_fold]

/-- The guardrail stage does not touch the rfp_id field. -/
lemma apply_guardrails_rfp_id (rfp : RFP) (ar : ApprovalResult) :
    (apply_guardrails rfp ar).rfp_id = ar.rfp_id := by
  unfold apply_guardrails
  rfl

/-- The guardrail stage does not touch the feedback field. -/
lemma apply_guardrails_feedback (rfp : RFP) (ar : ApprovalResult) :
    (apply_guardrails rfp ar).feedback = ar.feedback := by
  unfold apply_guardrails
  rfl

/-- C1. For every RFP whose content is missing at least one of the sections
Overview, Requirements, Timeline, Budget as a case-insensitive substring, the
guardrail stage forces the final approved flag to false, and the final issue
list is the model-supplied issues followed by the budget-guardrail issues and
then exactly one missing-section issue per missing section, in the checked
order Overview, Requirements, Timeline, Budget. -/
theorem guardrail_missing_sections_force_rejection (rfp : RFP) (ar : ApprovalResult)
    (h : essential_sections.any (fun s => sectionMissing rfp.content s) = true) :
    (apply_guardrails rfp ar).approved = false ∧
    (apply_guardrails rfp ar).issues =
      ar.issues ++ guardrail_budget_issues rfp.content ++
        (essential_sections.filter (fun s => sectionMissing rfp.content s)).map
          missing_section_msg := by
  constructor
  · rw [apply_guardrails_approved]
    have hall : essential_sections.all (fun s => !sectionMissing rfp.content s) = false := by
      rcases List.any_eq_true.mp h with ⟨s, hs, hm⟩
      cases hall : essential_sections.all (fun s => !sectionMissing rfp.content s) with
      | false => rfl
      | true =>
        have := List.all_eq_true.mp hall s hs
        simp [hm] at this
    simp [hall]
  · rw [apply_guardrails_issues]
    rfl

/-- Witness for C1 at a concrete RFP whose content has none of the sections. -/
def w1_rfp : RFP :=
  { request_id := "q1", title := "T", category := "Services",
    content := "hello world", status := .pending_approval }

/-- Model-supplied approval used by the C1 witness. -/
def w1_ar : ApprovalResult :=
  { rfp_id := "r1", approved := true, feedback := "fine", issues := ["model issue"] }

/-- Concrete instantiation of the C1 theorem. -/
theorem guardrail_missing_sections_force_rejection_witness :
    (apply_guardrails w1_rfp w1_ar).approved = false ∧
    (apply_guardrails w1_rfp w1_ar).issues =
      w1_ar.issues ++ guardrail_budget_issues w1_rfp.content ++
        (essential_sections.filter (fun s => sectionMissing w1_rfp.content s)).map
          missing_section_msg :=
  guardrail_missing_sections_force_rejection w1_rfp w1_ar (by decide)

/-- Skipping one pattern of the extraction loop: when its leftmost match is
absent or fails to parse, the loop continues with the remaining patterns. -/
lemma tryPats_cons_skip (p : List Char → Option (List Char))
    (ps : List (List Char → Option (List Char))) (cs : List Char)
    (h : patGroupParses p cs = false) : tryPats (p :: ps) cs = tryPats ps cs := by
  unfold patGroupParses at h
  cases hs : scanFirst p cs with
  | none => simp [tryPats, hs]
  | some g =>
    rw [hs] at h
    cases hp : parseAmt g with
    | none => simp [tryPats, hs, hp]
    | some q => simp [hp] at h

/-- Hitting one pattern of the extraction loop: a leftmost match with a
parseable group returns its value. -/
lemma tryPats_cons_hit (p : List Char → Option (List Char))
    (ps : List (List Char → Option (List Char))) (cs : List Char) (g : List Char) (q : ℚ)
    (h1 : scanFirst p cs = some g) (h2 : parseAmt g = some q) :
    tryPats (p :: ps) cs = q := by
  simp [tryPats, h1, h2]

/-- C2. Budget extraction and the budget guardrail: the extraction tries the
four patterns in priority order and returns the value of the first leftmost
match that parses (commas stripped by parseAmt); when no pattern matches it
returns zero and the budget guardrail does not block; the round-trip test
content extracts 1250000.50; and whenever the extracted figure exceeds
MAX_BUDGET the guardrail forces approved to false, for every tentative model
verdict, and appends the issue naming the threshold. -/
theorem budget_extraction_and_threshold_guardrail :
    (∀ (content : String) (g : List Char) (q : ℚ),
        scanFirst p1At content.data = some g → parseAmt g = some q →
        extract_budget content = q) ∧
    (∀ (content : String) (g : List Char) (q : ℚ),
        patGroupParses p1At content.data = false →
        scanFirst p2At content.data = some g → parseAmt g = some q →
        extract_budget content = q) ∧
    (∀ (content : String) (g : List Char) (q : ℚ),
        patGroupParses p1At content.data = false →
        patGroupParses p2At content.data = false →
        scanFirst p3At content.data = some g → parseAmt g = some q →
        extract_budget content = q) ∧
    (∀ (content : String) (g : List Char) (q : ℚ),
        patGroupParses p1At content.data = false →
        patGroupParses p2At content.data = false →
        patGroupParses p3At content.data = false →
        scanFirst p4At content.data = some g → parseAmt g = some q →
        extract_budget content = q) ∧
    (∀ content : String,
        budget_patterns.all (fun p => (scanFirst p content.data).isNone) = true →
        extract_budget content = 0 ∧ guardrail_budget_issues content = []) ∧
    extract_budget "Budget: $1,250,000.50" = 1250000.50 ∧
    (∀ (rfp : RFP) (ar : ApprovalResult),
        extract_budget rfp.content > MAX_BUDGET →
        (apply_guardrails rfp ar).approved = false ∧
        budget_threshold_issue ∈ (apply_guardrails rfp ar).issues) ∧
    budget_threshold_issue = "Budget exceeds maximum allowed threshold of $1,000,000.00" := by
  refine ⟨?_, ?_, ?_, ?_, ?_, ?_, ?_, ?_⟩
  · intro content g q h1 h2
    unfold extract_budget budget_patterns
    exact tryPats_cons_hit _ _ _ _ _ h1 h2
  · intro content g q hp1 h1 h2
    unfold extract_budget budget_patterns
    rw [tryPats_cons_skip _ _ _ hp1]
    exact tryPats_cons_hit _ _ _ _ _ h1 h2
  · intro content g q hp1 hp2 h1 h2
    unfold extract_budget budget_patterns
    rw [tryPats_cons_skip _ _ _ hp1, tryPats_cons_skip _ _ _ hp2]
    exact tryPats_cons_hit _ _ _ _ _ h1 h2
  · intro content g q hp1 hp2 hp3 h1 h2
    unfold extract_budget budget_patterns
    rw [tryPats_cons_skip _ _ _ hp1, tryPats_cons_skip _ _ _ hp2,
        tryPats_cons_skip _ _ _ hp3]
    exact tryPats_cons_hit _ _ _ _ _ h1 h2
  · intro content hall
    have hskip : ∀ p, (scanFirst p content.data).isNone = true → patGroupParses p content.data = false := by
      intro p hp
      unfold patGroupParses
      cases hs : scanFirst p content.data with
      | none => rfl
      | some g => rw [hs] at hp; simp at hp
    have h1 := List.all_eq_true.mp hall p1At (by simp [budget_patterns])
    have h2 := List.all_eq_true.mp hall p2At (by simp [budget_patterns])
    have h3 := List.all_eq_true.mp hall p3At (by simp [budget_patterns])
    have h4 := List.all_eq_true.mp hall p4At (by simp [budget_patterns])
    have hz : extract_budget content = 0 := by
      unfold extract_budget budget_patterns
      rw [tryPats_cons_skip _ _ _ (hskip _ h1), tryPats_cons_skip _ _ _ (hskip _ h2),
          tryPats_cons_skip _ _ _ (hskip _ h3), tryPats_cons_skip _ _ _ (hskip _ h4)]
      rfl
    refine ⟨hz, ?_⟩
    unfold guardrail_budget_issues
    rw [hz]
    norm_num [MAX_BUDGET]
  · have hscan : scanFirst p1At "Budget: $1,250,000.50".data =
        some ['1', ',', '2', '5', '0', ',', '0', '0', '0', '.', '5', '0'] := by decide
    have hval : parseAmt ['1', ',', '2', '5', '0', ',', '0', '0', '0', '.', '5', '0'] =
        some (((1250000 : ℕ) : ℚ) + ((50 : ℕ) : ℚ) / (10 : ℚ) ^ 2) := by rfl
    unfold extract_budget budget_patterns
    rw [tryPats_cons_hit _ _ _ _ _ hscan hval]
    norm_num
  · intro rfp ar h
    have hb : guardrail_budget_issues rfp.content = [budget_threshold_issue] := by
      unfold guardrail_budget_issues
      simp [h]
    constructor
    · rw [apply_guardrails_approved, hb]
      simp
    · rw [apply_guardrails_issues, hb]
      simp
  · decide

/-- RFP used by the C2 witness: its content names a figure above the cap. -/
def w2_rfp : RFP :=
  { request_id := "q2", title := "T", category := "Services",
    content := "Overview Requirements Timeline Budget: $2,000,000",
    status := .pending_approval }

/-- Model verdict used by the C2 witness: tentatively approved. -/
def w2_ar : ApprovalResult :=
  { rfp_id := "r2", approved := true, feedback := "fine", issues := [] }

/-- Concrete instantiations of every part of the C2 theorem. -/
theorem budget_extraction_and_threshold_guardrail_witness :
    extract_budget "fee $25 today" = 25 ∧
    extract_budget "price 30 USD" = 30 ∧
    extract_budget "x$, budget $5" = 5 ∧
    extract_budget ", USD budget 7 USD" = 7 ∧
    (extract_budget "no money here" = 0 ∧ guardrail_budget_issues "no money here" = []) ∧
    ((apply_guardrails w2_rfp w2_ar).approved = false ∧
      budget_threshold_issue ∈ (apply_guardrails w2_rfp w2_ar).issues) :=
  ⟨budget_extraction_and_threshold_guardrail.1 "fee $25 today" ['2', '5'] 25
      (by decide) (by decide),
   budget_extraction_and_threshold_guardrail.2.1 "price 30 USD" ['3', '0'] 30
      (by decide) (by decide) (by decide),
   budget_extraction_and_threshold_guardrail.2.2.1 "x$, budget $5" ['5'] 5
      (by decide) (by decide) (by decide) (by decide),
   budget_extraction_and_threshold_guardrail.2.2.2.1 ", USD budget 7 USD" ['7'] 7
      (by decide) (by decide) (by decide) (by decide) (by decide),
   budget_extraction_and_threshold_guardrail.2.2.2.2.1 "no money here" (by decide),
   budget_extraction_and_threshold_guardrail.2.2.2.2.2.2.1 w2_rfp w2_ar (by decide)⟩

/-- C3. The guardrail stage can only tighten the verdict: a tentative
rejection is never turned into an approval, and the final issue list extends
the model-supplied issue list, which therefore stays a prefix of it. The
rfp_id and feedback fields are untouched. -/
theorem guardrails_only_tighten (rfp : RFP) (ar : ApprovalResult) :
    (ar.approved = false → (apply_guardrails rfp ar).approved = false) ∧
    (∃ extra, (apply_guardrails rfp ar).issues = ar.issues ++ extra) ∧
    (apply_guardrails rfp ar).rfp_id = ar.rfp_id ∧
    (apply_guardrails rfp ar).feedback = ar.feedback := by
  refine ⟨?_, ?_, apply_guardrails_rfp_id rfp ar, apply_guardrails_feedback rfp ar⟩
  · intro h
    rw [apply_guardrails_approved, h]
    simp
  · refine ⟨guardrail_budget_issues rfp.content ++ guardrail_section_issues rfp.content, ?_⟩
    rw [apply_guardrails_issues, List.append_assoc]

/-- RFP used by the C3 witness. -/
def w3_rfp : RFP :=
  { request_id := "q3", title := "T", category := "Services",
    content := "Overview Requirements Timeline Budget $1", status := .pending_approval }

/-- Approval used by the C3 witness: the model already rejected. -/
def w3_ar : ApprovalResult :=
  { rfp_id := "r3", approved := false, feedback := "weak", issues := ["vague scope"] }

/-- Concrete instantiation of the C3 theorem. -/
theorem guardrails_only_tighten_witness :
    (apply_guardrails w3_rfp w3_ar).approved = false ∧
    (∃ extra, (apply_guardrails w3_rfp w3_ar).issues = w3_ar.issues ++ extra) :=
  ⟨(guardrails_only_tighten w3_rfp w3_ar).1 rfl,
   (guardrails_only_tighten w3_rfp w3_ar).2.1⟩

/-- RFP used by the C4 counterexample: its content has none of the essential
sections, so the guardrails trigger. -/
def c4_rfp : RFP :=
  { request_id := "q4", title := "T", category := "Services",
    content := "nothing here", status := .pending_approval }

/-- Already-rejected approval used by the C4 counterexample. -/
def c4_ar : ApprovalResult :=
  { rfp_id := "r4", approved := false, feedback := "bad", issues := ["model issue"] }

/-- Counterexample to C4: running the guardrail stage a second time on the
already-rejected result of the first run, with the same content and
configuration, does not yield the same issue list: the four missing-section
issues are appended again. -/
theorem guardrail_rerun_not_idempotent_counterexample :
    c4_ar.approved = false ∧
    (apply_guardrails c4_rfp (apply_guardrails c4_rfp c4_ar)).issues ≠
      (apply_guardrails c4_rfp c4_ar).issues ∧
    (apply_guardrails c4_rfp (apply_guardrails c4_rfp c4_ar)).issues =
      (apply_guardrails c4_rfp c4_ar).issues ++
        (essential_sections.map missing_section_msg) := by decide

/-- Amended C4: re-running the guardrail stage is deterministic and keeps a
rejection, but it appends the triggered guardrail issues a second time, so
the issue list only stays the same when no guardrail triggers on the content;
the set of distinct issues is unchanged. -/
theorem guardrail_rerun_appends_duplicates (rfp : RFP) (ar : ApprovalResult) :
    (apply_guardrails rfp (apply_guardrails rfp ar)).issues =
      (apply_guardrails rfp ar).issues ++
        (guardrail_budget_issues rfp.content ++ guardrail_section_issues rfp.content) ∧
    ((apply_guardrails rfp ar).approved = false →
      (apply_guardrails rfp (apply_guardrails rfp ar)).approved = false) ∧
    (∀ i, i ∈ (apply_guardrails rfp (apply_guardrails rfp ar)).issues ↔
      i ∈ (apply_guardrails rfp ar).issues) ∧
    (apply_guardrails rfp (apply_guardrails rfp ar) = apply_guardrails rfp ar ↔
      guardrail_budget_issues rfp.content ++ guardrail_section_issues rfp.content = []) := by
  refine ⟨?_, ?_, ?_, ?_, ?_⟩
  · rw [apply_guardrails_issues rfp (apply_guardrails rfp ar), List.append_assoc]
  · intro h
    rw [apply_guardrails_approved, h]
    simp
  · intro i
    constructor
    · intro hi
      rw [apply_guardrails_issues rfp (apply_guardrails rfp ar)] at hi
      rcases List.mem_append.mp hi with hi2 | hi2
      · rcases List.mem_append.mp hi2 with hi3 | hi3
        · exact hi3
        · rw [apply_guardrails_issues rfp ar]
          exact List.mem_append.mpr (Or.inl (List.mem_append.mpr (Or.inr hi3)))
      · rw [apply_guardrails_issues rfp ar]
        exact List.mem_append.mpr (Or.inr hi2)
    · intro hi
      rw [apply_guardrails_issues rfp (apply_guardrails rfp ar)]
      exact List.mem_append.mpr (Or.inl (List.mem_append.mpr (Or.inl hi)))
  · intro h
    have hi := congrArg ApprovalResult.issues h
    rw [apply_guardrails_issues rfp (apply_guardrails rfp ar)] at hi
    have hlen := congrArg List.length hi
    simp only [List.length_append] at hlen
    have hb : guardrail_budget_issues rfp.content = [] :=
      List.eq_nil_of_length_eq_zero (by omega)
    have hs : guardrail_section_issues rfp.content = [] :=
      List.eq_nil_of_length_eq_zero (by omega)
    rw [hb, hs]
    rfl
  · intro h
    have hb : guardrail_budget_issues rfp.content = [] := by
      cases hx : guardrail_budget_issues rfp.content with
      | nil => rfl
      | cons a l => rw [hx] at h; simp at h
    have hs : guardrail_section_issues rfp.content = [] := by
      cases hx : guardrail_section_issues rfp.content with
      | nil => rfl
      | cons a l => rw [hx, hb] at h; simp at h
    have hall : essential_sections.all (fun s => !sectionMissing rfp.content s) = true := by
      unfold guardrail_section_issues at hs
      rw [List.map_eq_nil_iff] at hs
      rw [List.all_eq_true]
      intro s hmem
      by_contra hcon
      have : s ∈ essential_sections.filter (fun s => sectionMissing rfp.content s) := by
        rw [List.mem_filter]
        refine ⟨hmem, ?_⟩
        cases hm : sectionMissing rfp.content s with
        | true => rfl
        | false => rw [hm] at hcon; simp at hcon
      rw [hs] at this
      simp at this
    rcases hg : apply_guardrails rfp ar with ⟨gi, ga, gf, gs⟩
    have e1 : (apply_guardrails rfp (apply_guardrails rfp ar)).issues =
        (apply_guardrails rfp ar).issues := by
      rw [apply_guardrails_issues rfp (apply_guardrails rfp ar), hb, hs]
      simp
    have e2 : (apply_guardrails rfp (apply_guardrails rfp ar)).approved =
        (apply_guardrails rfp ar).approved := by
      rw [apply_guardrails_approved rfp (apply_guardrails rfp ar), hb, hall]
      simp
    have e3 := apply_guardrails_rfp_id rfp (apply_guardrails rfp ar)
    have e4 := apply_guardrails_feedback rfp (apply_guardrails rfp ar)
    rw [hg] at e1 e2 e3 e4
    rcases hg2 : apply_guardrails rfp ⟨gi, ga, gf, gs⟩ with ⟨hi2, ha2, hf2, hs2⟩
    rw [hg2] at e1 e2 e3 e4
    simp at e1 e2 e3 e4
    simp [e1, e2, e3, e4]

/-- Concrete instantiation of the amended C4 theorem. -/
theorem guardrail_rerun_appends_duplicates_witness :
    (apply_guardrails c4_rfp (apply_guardrails c4_rfp c4_ar)).issues =
      (apply_guardrails c4_rfp c4_ar).issues ++
        (guardrail_budget_issues c4_rfp.content ++ guardrail_section_issues c4_rfp.content) ∧
    (apply_guardrails c4_rfp (apply_guardrails c4_rfp c4_ar)).approved = false ∧
    ("Missing essential section: Overview" ∈
        (apply_guardrails c4_rfp (apply_guardrails c4_rfp c4_ar)).issues ↔
      "Missing essential section: Overview" ∈ (apply_guardrails c4_rfp c4_ar).issues) :=
  ⟨(guardrail_rerun_appends_duplicates c4_rfp c4_ar).1,
   (guardrail_rerun_appends_duplicates c4_rfp c4_ar).2.1 (by decide),
   (guardrail_rerun_appends_duplicates c4_rfp c4_ar).2.2.1 "Missing essential section: Overview"⟩

/-- Characterization of every run whose classification chain raises: the
generate and approve nodes still execute but short-circuit on the absent
classification and RFP, the post-approval router sends the run to END through
the rejected branch, and neither send_email nor error_handler runs. -/
lemma run_classify_error (o : Oracles) (req : ProcurementRequest) (e : String)
    (h : o.classify_api = Except.error e) :
    workflow_execute o req =
      ({ request := classify_mutates o.classify_genId req, classification := none,
         rfp := none, approval := none, email_sent := false,
         error := some "No RFP to validate", status := "Error: No RFP to validate" },
       [NodeName.classify, NodeName.generate_rfp, NodeName.approve_rfp]) := by
  simp [workflow_execute, run_from, run_node, classify_node, classify_agent, h,
        generate_rfp_node, approve_rfp_node, next_node, route_after_approval,
        initial_state]

/-- Request used by the C5 counterexample. -/
def c5_req : ProcurementRequest := { id := some "q5", title := "Desks", description := "d" }

/-- Oracles used by the C5 counterexample: the classification chain raises. -/
def c5_oracles : Oracles :=
  ⟨Except.error "API connection failure", "u5", Except.ok [], "r5",
   Except.ok ⟨true, "ok", []⟩, 3, [true]⟩

/-- Counterexample to C5: in this run the classify node sets the error field,
yet the state machine still executes the generate_rfp and approve_rfp
happy-path nodes on that state and never routes to the error_handler node. -/
theorem error_routing_counterexample :
    (run_node c5_oracles NodeName.classify (initial_state c5_req)).error.isSome = true ∧
    (workflow_execute c5_oracles c5_req).2 =
      [NodeName.classify, NodeName.generate_rfp, NodeName.approve_rfp] ∧
    NodeName.generate_rfp ∈ (workflow_execute c5_oracles c5_req).2 ∧
    NodeName.approve_rfp ∈ (workflow_execute c5_oracles c5_req).2 ∧
    NodeName.error_handler ∉ (workflow_execute c5_oracles c5_req).2 := by decide

/-- Amended C5: once the classification step sets the error field, the
remaining happy-path nodes still execute but short-circuit without invoking
their agents, the RFP and approval stay absent, the run is routed to END
through the rejected branch, send_email never runs, and the dedicated
error_handler node (which has no incoming edge) never runs either. -/
theorem error_short_circuits_remaining_nodes (o : Oracles) (req : ProcurementRequest)
    (e : String) (h : o.classify_api = Except.error e) :
    (workflow_execute o req).2 =
      [NodeName.classify, NodeName.generate_rfp, NodeName.approve_rfp] ∧
    (workflow_execute o req).1.error.isSome = true ∧
    (workflow_execute o req).1.rfp = none ∧
    (workflow_execute o req).1.approval = none ∧
    (workflow_execute o req).1.email_sent = false ∧
    NodeName.send_email ∉ (workflow_execute o req).2 ∧
    NodeName.error_handler ∉ (workflow_execute o req).2 := by
  rw [run_classify_error o req e h]
  exact ⟨rfl, rfl, rfl, rfl, rfl, by simp, by simp⟩

/-- Request used by the C5 witness. -/
def c5w_req : ProcurementRequest := { id := none, title := "Paper", description := "d" }

/-- Oracles used by the C5 witness. -/
def c5w_oracles : Oracles :=
  ⟨Except.error "timeout", "u5w", Except.ok [], "r5w", Except.ok ⟨false, "no", []⟩, 4, []⟩

/-- Concrete instantiation of the amended C5 theorem. -/
theorem error_short_circuits_remaining_nodes_witness :
    (workflow_execute c5w_oracles c5w_req).2 =
      [NodeName.classify, NodeName.generate_rfp, NodeName.approve_rfp] ∧
    (workflow_execute c5w_oracles c5w_req).1.error.isSome = true ∧
    (workflow_execute c5w_oracles c5w_req).1.rfp = none ∧
    (workflow_execute c5w_oracles c5w_req).1.approval = none ∧
    (workflow_execute c5w_oracles c5w_req).1.email_sent = false ∧
    NodeName.send_email ∉ (workflow_execute c5w_oracles c5w_req).2 ∧
    NodeName.error_handler ∉ (workflow_execute c5w_oracles c5w_req).2 :=
  error_short_circuits_remaining_nodes c5w_oracles c5w_req "timeout" rfl

/-- C7. When the classification step fails, the final state keeps rfp and
approval absent and the error field set; the post-approval router treats an
absent approval as rejected, so the run terminates without attempting
delivery. -/
theorem classification_failure_contract (o : Oracles) (req : ProcurementRequest)
    (e : String) (h : o.classify_api = Except.error e) :
    (workflow_execute o req).1.rfp = none ∧
    (workflow_execute o req).1.approval = none ∧
    (workflow_execute o req).1.error.isSome = true ∧
    NodeName.send_email ∉ (workflow_execute o req).2 ∧
    (∀ s : WorkflowState, s.approval = none → route_after_approval s = "rejected") := by
  rw [run_classify_error o req e h]
  refine ⟨rfl, rfl, rfl, by simp, ?_⟩
  intro s hs
  simp [route_after_approval, hs]

/-- Request used by the C7 witness. -/
def c7w_req : ProcurementRequest := { id := some "q7", title := "Vans", description := "d" }

/-- Oracles used by the C7 witness. -/
def c7w_oracles : Oracles :=
  ⟨Except.error "parse failure", "u7", Except.ok [], "r7", Except.ok ⟨true, "y", []⟩, 6, []⟩

/-- Concrete instantiation of the C7 theorem. -/
theorem classification_failure_contract_witness :
    (workflow_execute c7w_oracles c7w_req).1.rfp = none ∧
    (workflow_execute c7w_oracles c7w_req).1.approval = none ∧
    (workflow_execute c7w_oracles c7w_req).1.error.isSome = true ∧
    NodeName.send_email ∉ (workflow_execute c7w_oracles c7w_req).2 ∧
    (∀ s : WorkflowState, s.approval = none → route_after_approval s = "rejected") :=
  classification_failure_contract c7w_oracles c7w_req "parse failure" rfl

/-- Request used by the C6 counterexample. -/
def c6_req : ProcurementRequest := { id := some "q6", title := "Pumps", description := "d" }

/-- Oracles used by the C6 counterexample: the classification chain raises. -/
def c6_oracles : Oracles :=
  ⟨Except.error "LLM timeout", "u6", Except.ok [], "r6", Except.ok ⟨true, "y", []⟩, 2, []⟩

/-- Counterexample to the reporting part of C6: this exceptional failure sets
the error field but the final status is the step-specific message of the last
executed node, not a generic status beginning with Workflow failed. -/
theorem workflow_failed_status_counterexample :
    c6_oracles.classify_api = Except.error "LLM timeout" ∧
    (workflow_execute c6_oracles c6_req).1.error.isSome = true ∧
    startsWithStr "Workflow failed" (workflow_execute c6_oracles c6_req).1.status = false ∧
    startsWithStr "workflow failed" (workflow_execute c6_oracles c6_req).1.status = false ∧
    (workflow_execute c6_oracles c6_req).1.status = "Error: No RFP to validate" :=
  ⟨rfl, by decide, by decide, by decide, by decide⟩

/-- State after the classify node. -/
def pipe_s1 (o : Oracles) (req : ProcurementRequest) : WorkflowState :=
  classify_node o (initial_state req)

/-- State after the generate_rfp node. -/
def pipe_s2 (o : Oracles) (req : ProcurementRequest) : WorkflowState :=
  generate_rfp_node o (pipe_s1 o req)

/-- State after the approve_rfp node. -/
def pipe_s3 (o : Oracles) (req : ProcurementRequest) : WorkflowState :=
  approve_rfp_node o (pipe_s2 o req)

/-- The graph walk spelled out: classify, generate and approve always run in
sequence, then the router either appends the send_email node or ends. -/
lemma workflow_execute_eq (o : Oracles) (req : ProcurementRequest) :
    workflow_execute o req =
      if route_after_approval (pipe_s3 o req) = "approved" then
        (send_email_node o (pipe_s3 o req),
         [NodeName.classify, NodeName.generate_rfp, NodeName.approve_rfp,
          NodeName.send_email])
      else (pipe_s3 o req, [NodeName.classify, NodeName.generate_rfp,
            NodeName.approve_rfp]) := by
  unfold workflow_execute pipe_s3 pipe_s2 pipe_s1
  by_cases hr : route_after_approval
      (approve_rfp_node o (generate_rfp_node o (classify_node o (initial_state req)))) =
      "approved"
  · simp [run_from, run_node, next_node, hr]
  · simp [run_from, run_node, next_node, hr]

/-- The classify node never touches the rfp, approval or email_sent fields. -/
lemma classify_node_frame (o : Oracles) (s : WorkflowState) :
    (classify_node o s).rfp = s.rfp ∧ (classify_node o s).approval = s.approval ∧
    (classify_node o s).email_sent = s.email_sent := by
  cases hapi : (classify_agent s.request o.classify_genId o.classify_api).2 with
  | error e => simp [classify_node, hapi]
  | ok c => simp [classify_node, hapi]

/-- When the classify node produces a classification on a state that had
none, it took its success branch, which leaves the error field unchanged. -/
lemma classify_node_ok (o : Oracles) (s : WorkflowState) (c : ClassificationResult)
    (h0 : s.classification = none) (h : (classify_node o s).classification = some c) :
    (classify_node o s).error = s.error := by
  cases hapi : (classify_agent s.request o.classify_genId o.classify_api).2 with
  | error e => simp [classify_node, hapi, h0] at h
  | ok c2 => simp [classify_node, hapi]

/-- The generate_rfp node never touches the classification, approval or
email_sent fields. -/
lemma generate_node_frame (o : Oracles) (s : WorkflowState) :
    (generate_rfp_node o s).classification = s.classification ∧
    (generate_rfp_node o s).approval = s.approval ∧
    (generate_rfp_node o s).email_sent = s.email_sent := by
  cases hcl : s.classification with
  | none => simp [generate_rfp_node, hcl]
  | some c =>
    cases hg : generate_rfp_agent s.request c o.draft_api o.rfp_newId o.now with
    | error e => simp [generate_rfp_node, hcl, hg]
    | ok rfp0 => simp [generate_rfp_node, hcl, hg]

/-- When the generate_rfp node produces an RFP on a state that had none, it
took its success branch: the classification was present and the error field
is unchanged. -/
lemma generate_node_ok (o : Oracles) (s : WorkflowState) (rfp : RFP)
    (h0 : s.rfp = none) (h : (generate_rfp_node o s).rfp = some rfp) :
    (∃ c, s.classification = some c) ∧ (generate_rfp_node o s).error = s.error := by
  cases hcl : s.classification with
  | none => simp [generate_rfp_node, hcl, h0] at h
  | some c =>
    cases hg : generate_rfp_agent s.request c o.draft_api o.rfp_newId o.now with
    | error e => simp [generate_rfp_node, hcl, hg, h0] at h
    | ok rfp0 => exact ⟨⟨c, rfl⟩, by simp [generate_rfp_node, hcl, hg]⟩

/-- When the approve_rfp node produces an approval on a state that had none,
it took its success branch: the state held an RFP, the error and email_sent
fields are unchanged, and the status reports the verdict of the stored
result. -/
lemma approve_node_ok (o : Oracles) (s : WorkflowState) (ar : ApprovalResult)
    (h0 : s.approval = none) (h : (approve_rfp_node o s).approval = some ar) :
    (∃ rfp, s.rfp = some rfp) ∧
    (approve_rfp_node o s).error = s.error ∧
    (approve_rfp_node o s).email_sent = s.email_sent ∧
    (approve_rfp_node o s).status =
      (if ar.approved then "RFP approved" else "RFP rejected: " ++ ar.feedback) := by
  cases hrfp : s.rfp with
  | none => simp [approve_rfp_node, hrfp, h0] at h
  | some rfp =>
    cases hv : validate_rfp rfp o.approve_api o.now with
    | error e => simp [approve_rfp_node, hrfp, hv, h0] at h
    | ok pr =>
      have har : pr.1 = ar := by simpa [approve_rfp_node, hrfp, hv] using h
      refine ⟨⟨rfp, rfl⟩, ?_, ?_, ?_⟩ <;> simp [approve_rfp_node, hrfp, hv, har]

/-- The send_email node never touches the approval field. -/
lemma send_node_frame (o : Oracles) (s : WorkflowState) :
    (send_email_node o s).approval = s.approval := by
  cases hrfp : s.rfp with
  | none => simp [send_email_node, hrfp]
  | some rfp =>
    by_cases hs : rfp.suppliers.isEmpty <;> simp [send_email_node, hrfp, hs]

/-- Amended C6: every execution returns a final state and the caller detects
an exceptional failure by inspecting the error field (shown here for a
failing classification chain); a guardrail rejection is a normal terminal
outcome with no error, status RFP rejected with the feedback, and no e-mail;
the generic Workflow failed status is produced only by the handle_error node,
which is unreachable in the compiled graph. -/
theorem failure_and_rejection_reporting :
    (∀ (o : Oracles) (req : ProcurementRequest) (ar : ApprovalResult),
        (workflow_execute o req).1.approval = some ar → ar.approved = false →
        (workflow_execute o req).1.error = none ∧
        (workflow_execute o req).1.status = "RFP rejected: " ++ ar.feedback ∧
        (workflow_execute o req).1.email_sent = false) ∧
    (∀ s : WorkflowState,
        (handle_error_node s).status =
          "Workflow failed: " ++ (match s.error with | some e => e | none => "None")) ∧
    (∀ (o : Oracles) (req : ProcurementRequest) (e : String),
        o.classify_api = Except.error e →
        (workflow_execute o req).1.error.isSome = true) := by
  refine ⟨?_, fun s => rfl, ?_⟩
  · intro o req ar h ha
    rw [workflow_execute_eq] at h ⊢
    have h1ap : (pipe_s1 o req).approval = none := (classify_node_frame o (initial_state req)).2.1
    have h2ap : (pipe_s2 o req).approval = none := by
      rw [pipe_s2, (generate_node_frame o (pipe_s1 o req)).2.1, h1ap]
    by_cases hr : route_after_approval (pipe_s3 o req) = "approved"
    · rw [if_pos hr] at h
      simp only at h
      rw [send_node_frame o (pipe_s3 o req)] at h
      unfold route_after_approval at hr
      rw [h] at hr
      simp only [ha] at hr
      simp at hr
    · rw [if_neg hr] at h ⊢
      simp only at h ⊢
      obtain ⟨⟨rfp2, hrfp2⟩, he3, hm3, hst3⟩ := approve_node_ok o (pipe_s2 o req) ar h2ap h
      have h1rfp : (pipe_s1 o req).rfp = none := by
        rw [pipe_s1, (classify_node_frame o (initial_state req)).1]
        rfl
      obtain ⟨⟨c1, hc1⟩, he2⟩ := generate_node_ok o (pipe_s1 o req) rfp2 h1rfp hrfp2
      have hc0 : (initial_state req).classification = none := rfl
      have hc1b : (classify_node o (initial_state req)).classification = some c1 := hc1
      have he1 : (pipe_s1 o req).error = (initial_state req).error :=
        classify_node_ok o (initial_state req) c1 hc0 hc1b
      have herr : (pipe_s3 o req).error = none := by
        rw [pipe_s3, he3, pipe_s2, he2, he1]
        rfl
      have hm2 : (pipe_s2 o req).email_sent = false := by
        rw [pipe_s2, (generate_node_frame o (pipe_s1 o req)).2.2, pipe_s1,
            (classify_node_frame o (initial_state req)).2.2]
        rfl
      refine ⟨herr, ?_, ?_⟩
      · rw [pipe_s3, hst3, ha]
        simp
      · rw [pipe_s3, hm3]
        exact hm2
  · intro o req e h
    rw [run_classify_error o req e h]
    rfl

/-- Request used by the C6 witness. -/
def c6w_req : ProcurementRequest := { id := some "q6w", title := "CRM", description := "d" }

/-- Oracles of a run where every chain answers and the model rejects. -/
def c6w_oracles : Oracles :=
  ⟨Except.ok ⟨"Software", 1, "fits"⟩, "u6w", Except.ok [], "r6w",
   Except.ok ⟨false, "bad", ["x"]⟩, 8, []⟩

/-- The approval result that run stores: the model verdict passed through the
guardrails, which add nothing because the Software template carries all four
section headings and no monetary figure. -/
def c6w_ar : ApprovalResult := ⟨"r6w", false, "bad", ["x"]⟩

/-- Oracles of a failing run used for the error-detection part of the C6
witness. -/
def c6w2_oracles : Oracles :=
  ⟨Except.error "boom6", "u6x", Except.ok [], "r6x", Except.ok ⟨true, "y", []⟩, 9, []⟩

set_option maxRecDepth 8000 in
/-- Concrete instantiations of the three parts of the amended C6 theorem. -/
theorem failure_and_rejection_reporting_witness :
    ((workflow_execute c6w_oracles c6w_req).1.error = none ∧
     (workflow_execute c6w_oracles c6w_req).1.status = "RFP rejected: " ++ c6w_ar.feedback ∧
     (workflow_execute c6w_oracles c6w_req).1.email_sent = false) ∧
    (handle_error_node (initial_state c6w_req)).status = "Workflow failed: None" ∧
    (workflow_execute c6w2_oracles c6w_req).1.error.isSome = true :=
  ⟨failure_and_rejection_reporting.1 c6w_oracles c6w_req c6w_ar (by decide) (by decide),
   show (handle_error_node (initial_state c6w_req)).status = "Workflow failed: None" from
     failure_and_rejection_reporting.2.1 (initial_state c6w_req),
   failure_and_rejection_reporting.2.2 c6w2_oracles c6w_req "boom6" rfl⟩

/-- The supplier loop in closed form: it walks the whole list and ANDs the
outcomes into the accumulator. -/
lemma send_rfp_loop_eq (sups : List Supplier) (outs : List Bool) (acc : Bool) :
    send_rfp_loop sups outs acc = (acc && andOutcomes sups outs, sups) := by
  induction sups generalizing outs acc with
  | nil => simp [send_rfp_loop, andOutcomes]
  | cons hd tl ih => simp [send_rfp_loop, andOutcomes, ih, Bool.and_assoc]

/-- C8. The delivery step sends only APPROVED RFPs (otherwise it is a no-op
returning failure); with a non-empty supplier list it attempts every supplier
in list order regardless of individual failures, overall success is the AND
of the per-supplier outcomes, on success the RFP becomes SENT with a sent
timestamp, and on failure the RFP is left as APPROVED. -/
theorem delivery_step_contract (rfp : RFP) (outs : List Bool) (now : ℕ) :
    (rfp.status ≠ RFPStatus.approved → send_to_suppliers rfp outs now = (false, rfp, [])) ∧
    (rfp.status = RFPStatus.approved → rfp.suppliers ≠ [] →
      (send_to_suppliers rfp outs now).2.2 = rfp.suppliers ∧
      (send_to_suppliers rfp outs now).1 = andOutcomes rfp.suppliers outs ∧
      ((send_to_suppliers rfp outs now).1 = true →
        (send_to_suppliers rfp outs now).2.1 =
          { rfp with status := RFPStatus.sent, sent_date := some now }) ∧
      ((send_to_suppliers rfp outs now).1 = false →
        (send_to_suppliers rfp outs now).2.1 = rfp ∧
        (send_to_suppliers rfp outs now).2.1.status = RFPStatus.approved)) := by
  constructor
  · intro h
    simp [send_to_suppliers, h]
  · intro h hs
    have hne : rfp.suppliers.isEmpty = false := by
      cases hx : rfp.suppliers with
      | nil => exact absurd hx hs
      | cons a l => rfl
    have hloop := send_rfp_loop_eq rfp.suppliers outs true
    by_cases ha : andOutcomes rfp.suppliers outs
    · refine ⟨?_, ?_, ?_, ?_⟩ <;>
        simp [send_to_suppliers, email_send_rfp, h, hne, hloop, ha]
    · have ha2 : andOutcomes rfp.suppliers outs = false := by
        cases hx : andOutcomes rfp.suppliers outs with
        | false => rfl
        | true => exact absurd hx ha
      refine ⟨?_, ?_, ?_, ?_⟩ <;>
        simp [send_to_suppliers, email_send_rfp, h, hne, hloop, ha2, h]

/-- Non-approved RFP used by the C8 witness. -/
def c8_pending : RFP :=
  { request_id := "q8", title := "T8", category := "Services", content := "x",
    status := .pending_approval, suppliers := [⟨"S1", "s1@ex.com", none, none⟩] }

/-- Approved RFP with two suppliers used by the C8 witness. -/
def c8_approved : RFP :=
  { request_id := "q8b", title := "T8b", category := "Services", content := "x",
    status := .approved,
    suppliers := [⟨"S1", "s1@ex.com", none, none⟩, ⟨"S2", "s2@ex.com", none, none⟩] }

/-- Concrete instantiations of the C8 theorem: a pending RFP is refused, a
mixed outcome attempts both suppliers and leaves the RFP approved, a clean
outcome stamps it SENT. -/
theorem delivery_step_contract_witness :
    send_to_suppliers c8_pending [true] 5 = (false, c8_pending, []) ∧
    (send_to_suppliers c8_approved [true, false] 5).2.2 = c8_approved.suppliers ∧
    (send_to_suppliers c8_approved [true, false] 5).1 =
      andOutcomes c8_approved.suppliers [true, false] ∧
    ((send_to_suppliers c8_approved [true, false] 5).2.1 = c8_approved ∧
      (send_to_suppliers c8_approved [true, false] 5).2.1.status = RFPStatus.approved) ∧
    (send_to_suppliers c8_approved [true, true] 5).2.1 =
      { c8_approved with status := RFPStatus.sent, sent_date := some 5 } :=
  ⟨(delivery_step_contract c8_pending [true] 5).1 (by decide),
   ((delivery_step_contract c8_approved [true, false] 5).2 rfl (by decide)).1,
   ((delivery_step_contract c8_approved [true, false] 5).2 rfl (by decide)).2.1,
   ((delivery_step_contract c8_approved [true, false] 5).2 rfl (by decide)).2.2.2 (by decide),
   ((delivery_step_contract c8_approved [true, true] 5).2 rfl (by decide)).2.2.1 (by decide)⟩

/-- Lookup distributes over list append, trying the left list first. -/
lemma lookup_append (l r : List (String × String)) (k : String) :
    (l ++ r).lookup k = ((l.lookup k).orElse (fun _ => r.lookup k)) := by
  induction l with
  | nil => simp [List.lookup]
  | cons a tl ih =>
    obtain ⟨ka, va⟩ := a
    cases h : (k == ka) <;> simp [List.lookup, h, ih]

/-- Lookup succeeds in a constant-pair list built from a key list containing
the key. -/
lemma lookup_map_pair (ks : List String) (k : String) (hk : k ∈ ks) :
    ((ks.map (fun x => (x, ""))).lookup k).isSome = true := by
  induction ks with
  | nil => simp at hk
  | cons a tl ih =>
    by_cases h : k = a
    · subst h
      simp [List.lookup]
    · have hba : (k == a) = false := by simp [h]
      have hmem : k ∈ tl := (List.mem_cons.mp hk).resolve_left h
      simp [List.lookup, hba, ih hmem]

/-- A successful lookup in a constant-pair list certifies key membership. -/
lemma lookup_map_pair_mem (ks : List String) (k v : String)
    (h : ((ks.map (fun x => (x, ""))).lookup k) = some v) : k ∈ ks := by
  induction ks with
  | nil => simp [List.lookup] at h
  | cons a tl ih =>
    cases hb : (k == a) with
    | true => exact List.mem_cons.mpr (Or.inl (by simpa using hb))
    | false =>
      simp [List.lookup, hb] at h
      exact List.mem_cons.mpr (Or.inr (ih h))

/-- After the defaulting loop, every template field key has a value. -/
lemma lookup_defaults (d : List (String × String)) (k : String)
    (hk : k ∈ template_field_keys) : ((addDefaults d).lookup k).isSome = true := by
  unfold addDefaults
  cases hd : d.lookup k with
  | some v => simp [lookup_append, hd]
  | none =>
    have hk2 : k ∈ template_field_keys.filter (fun x => (d.lookup x).isNone) := by
      rw [List.mem_filter]
      exact ⟨hk, by simp [hd]⟩
    have hm := lookup_map_pair (template_field_keys.filter (fun x => (d.lookup x).isNone)) k hk2
    rw [lookup_append, hd]
    simpa using hm

/-- Formatting succeeds under any dictionary that answers at least the keys
of a dictionary under which it already succeeds. -/
lemma pyFormatGo_mono (d d0 : List (String × String))
    (hsub : ∀ k v, d0.lookup k = some v → (d.lookup k).isSome = true) :
    ∀ (s : List Char) (m : FmtMode),
      (pyFormatGo d0 s m).isSome = true → (pyFormatGo d s m).isSome = true := by
  intro s m
  induction s, m using pyFormatGo.induct d0 with
  | case13 rest key v =>
    rename_i hl ih
    intro h
    simp [pyFormatGo, hl] at h
    obtain ⟨w, hw⟩ := Option.isSome_iff_exists.mp (hsub _ _ hl)
    simp [pyFormatGo, hw]
    exact ih h
  | case14 rest key =>
    rename_i hl
    intro h
    simp [pyFormatGo, hl] at h
  | _ =>
    intro h
    simp_all [pyFormatGo]

/-- The all-keys default dictionary. -/
def default_fields : List (String × String) := template_field_keys.map (fun x => (x, ""))

set_option maxRecDepth 8000 in
/-- Every template of the configuration renders under the default
dictionary: each placeholder is one of the ten field keys. -/
lemma templates_render_default :
    ∀ t ∈ [SOFTWARE_TEMPLATE, HARDWARE_TEMPLATE, SERVICES_TEMPLATE, RAW_MATERIALS_TEMPLATE],
      (pyFormatGo default_fields t.data FmtMode.normal).isSome = true := by
  intro t ht
  fin_cases ht <;> decide

/-- A successful template lookup returns one of the four stored templates. -/
lemma lookup_mem_values (l : List (String × String)) (k v : String)
    (h : l.lookup k = some v) : v ∈ l.map Prod.snd := by
  induction l with
  | nil => simp [List.lookup] at h
  | cons a tl ih =>
    obtain ⟨ka, va⟩ := a
    cases hb : (k == ka) with
    | true =>
      simp [List.lookup, hb] at h
      simp [h]
    | false =>
      simp [List.lookup, hb] at h
      simp [ih h]

/-- The selected template, fallback included, is one of the four configured
templates. -/
lemma lookupTemplate_mem (category : String) :
    lookupTemplate category ∈
      [SOFTWARE_TEMPLATE, HARDWARE_TEMPLATE, SERVICES_TEMPLATE, RAW_MATERIALS_TEMPLATE] := by
  unfold lookupTemplate
  cases hl : RFP_TEMPLATES.lookup category with
  | none => simp
  | some t =>
    have hm := lookup_mem_values RFP_TEMPLATES category t hl
    simp only [Option.getD_some]
    simpa [RFP_TEMPLATES] using hm

/-- Rendering the selected template with the defaulted dictionary never
fails, whatever the drafting capability returned. -/
lemma render_total (category : String) (d : List (String × String)) :
    (pyFormat (lookupTemplate category) (addDefaults d)).isSome = true := by
  unfold pyFormat
  have h0 : (pyFormatGo (addDefaults d) (lookupTemplate category).data FmtMode.normal).isSome
      = true := by
    refine pyFormatGo_mono (addDefaults d) default_fields ?_ _ _
      (templates_render_default _ (lookupTemplate_mem category))
    intro k v hkv
    exact lookup_defaults d k (lookup_map_pair_mem template_field_keys k v hkv)
  obtain ⟨x, hx⟩ := Option.isSome_iff_exists.mp h0
  rw [hx]
  rfl

/-- C9. With a non-null classification, successful generation returns an RFP
with status PENDING_APPROVAL whose content is the category template (the
Services template for categories outside the stored set) rendered after
defaulting every omitted structured field to the empty string, so rendering
never fails on a missing key. -/
theorem rfp_generation_contract (req : ProcurementRequest) (rid : String)
    (c : ClassificationResult) (draft : List (String × String)) (newId : String) (now : ℕ)
    (h : req.id = some rid) :
    ∃ content : String,
      pyFormat (lookupTemplate c.category) (addDefaults draft) = some content ∧
      generate_rfp_agent req c (Except.ok draft) newId now =
        Except.ok { id := some newId, request_id := rid, title := "RFP for " ++ req.title,
                    category := c.category, content := content,
                    status := RFPStatus.pending_approval, created_at := now,
                    updated_at := now } ∧
      (RFP_TEMPLATES.lookup c.category = none →
        lookupTemplate c.category = SERVICES_TEMPLATE) := by
  obtain ⟨content, hc⟩ := Option.isSome_iff_exists.mp (render_total c.category draft)
  refine ⟨content, hc, ?_, ?_⟩
  · simp [generate_rfp_agent, hc, h]
  · intro hl
    simp [lookupTemplate, hl]

/-- Request used by the C9 witness. -/
def w9_req : ProcurementRequest := { id := some "q9", title := "Landscaping", description := "d" }

/-- Classification used by the C9 witness: a category outside the stored
template set, exercising the Services fallback. -/
def w9_cls : ClassificationResult := ⟨"q9", "Gardening", 1, "green"⟩

/-- Concrete instantiation of the C9 theorem with an unknown category and a
drafter that omits nine of the ten structured fields. -/
theorem rfp_generation_contract_witness :
    ∃ content : String,
      pyFormat (lookupTemplate w9_cls.category) (addDefaults [("budget", "B")]) = some content ∧
      generate_rfp_agent w9_req w9_cls (Except.ok [("budget", "B")]) "n9" 3 =
        Except.ok { id := some "n9", request_id := "q9", title := "RFP for " ++ w9_req.title,
                    category := w9_cls.category, content := content,
                    status := RFPStatus.pending_approval, created_at := 3,
                    updated_at := 3 } ∧
      (RFP_TEMPLATES.lookup w9_cls.category = none →
        lookupTemplate w9_cls.category = SERVICES_TEMPLATE) :=
  rfp_generation_contract w9_req "q9" w9_cls [("budget", "B")] "n9" 3 rfl

/-- Request used by the C10 counterexample: it lacks an id. -/
def c10_req : ProcurementRequest := { id := none, title := "Chairs", description := "d" }

/-- One-object store whose address 0 holds the request of the initial
snapshot. -/
def c10_store : ℕ → ProcurementRequest := fun _ => c10_req

/-- Counterexample to C10: dispatching the id-less request to the classifier
overwrites the request object in the shared store, so the Request held by the
earlier snapshot (same address, unchanged by the step) is mutated in place. -/
theorem request_mutation_counterexample :
    (classify_step_heap "u10" c10_store 0).2 = 0 ∧
    (classify_step_heap "u10" c10_store 0).1 0 ≠ c10_store 0 ∧
    ((classify_step_heap "u10" c10_store 0).1 0).id = some "u10" := by decide

/-- Amended C10: when the request id is absent, the classification step
generates one by assigning to the shared request object in place (the
snapshot keeps the same address and the stored object changes exactly by
gaining the id); a request whose id is falsy because it is the empty string
is likewise overwritten with a fresh id; only a request with a non-empty id
is left untouched; and the approval step mutates the shared RFP object in
place, moving its status away from PENDING_APPROVAL. -/
theorem shared_object_mutation_amended :
    (∀ (req : ProcurementRequest) (genId : String) (store : ℕ → ProcurementRequest) (a : ℕ),
        store a = req → req.id = none →
        (classify_step_heap genId store a).2 = a ∧
        (classify_step_heap genId store a).1 a = { req with id := some genId }) ∧
    (∀ (req : ProcurementRequest) (genId : String) (s : String),
        req.id = some s → s ≠ "" → classify_mutates genId req = req) ∧
    (∀ (req : ProcurementRequest) (genId : String), req.id = some "" →
        classify_mutates genId req = { req with id := some genId }) ∧
    (∀ (rfp : RFP) (v : ModelVerdict) (now : ℕ) (ar : ApprovalResult) (rfp2 : RFP),
        validate_rfp rfp (Except.ok v) now = Except.ok (ar, rfp2) →
        rfp.status = RFPStatus.pending_approval →
        rfp2.status ≠ RFPStatus.pending_approval) := by
  refine ⟨?_, ?_, ?_, ?_⟩
  · intro req genId store a hs h0
    refine ⟨rfl, ?_⟩
    simp [classify_step_heap, hs, classify_mutates, h0]
  · intro req genId s h hne
    unfold classify_mutates
    rw [h]
    simp [hne]
  · intro req genId h
    unfold classify_mutates
    rw [h]
    simp
  · intro rfp v now ar rfp2 hv hst
    simp only [validate_rfp] at hv
    cases hv
    split <;> simp

/-- Store used by the C10 witness. -/
def c10w_store : ℕ → ProcurementRequest :=
  fun _ => { id := none, title := "Cables", description := "d" }

/-- RFP used by the C10 witness. -/
def c10w_rfp : RFP :=
  { id := some "r10", request_id := "q10", title := "T10", category := "Services",
    content := "Overview Requirements Timeline Budget", status := .pending_approval }

/-- Result the approval step stores for that RFP and a rejecting verdict. -/
def c10w_ar : ApprovalResult := ⟨"r10", false, "f", []⟩

/-- Concrete instantiations of the four parts of the amended C10 theorem. -/
theorem shared_object_mutation_amended_witness :
    ((classify_step_heap "u10w" c10w_store 0).2 = 0 ∧
      (classify_step_heap "u10w" c10w_store 0).1 0 =
        { c10w_store 0 with id := some "u10w" }) ∧
    classify_mutates "u10w" { id := some "kept", title := "Desks", description := "d" } =
      { id := some "kept", title := "Desks", description := "d" } ∧
    classify_mutates "u10w" { id := some "", title := "Lamps", description := "d" } =
      { id := some "u10w", title := "Lamps", description := "d" } ∧
    { c10w_rfp with status := RFPStatus.rejected, approval_feedback := some "f" }.status ≠
      RFPStatus.pending_approval :=
  ⟨shared_object_mutation_amended.1 { id := none, title := "Cables", description := "d" }
      "u10w" c10w_store 0 rfl rfl,
   shared_object_mutation_amended.2.1 { id := some "kept", title := "Desks", description := "d" }
      "u10w" "kept" rfl (by decide),
   show classify_mutates "u10w" { id := some "", title := "Lamps", description := "d" } =
       { id := some "u10w", title := "Lamps", description := "d" } from
     shared_object_mutation_amended.2.2.1
       { id := some "", title := "Lamps", description := "d" } "u10w" rfl,
   shared_object_mutation_amended.2.2.2 c10w_rfp ⟨false, "f", []⟩ 7 c10w_ar
      { c10w_rfp with status := RFPStatus.rejected, approval_feedback := some "f" }
      (by rfl) rfl⟩
